import Mathlib

/-!
# Verification of the arXiv search/cache engine

A shallow embedding of the core of `arxiv_mcp_server.py`: query
normalization, topic-slug derivation, the deduplicating merge of provider
results into a per-topic JSON registry, the cross-topic identifier lookup
(`extract_info`), and the topic renderer (`get_topic_papers`).

Python strings are modelled as Lean `String` (a list of characters);
Python `dict`s persisted as JSON are modelled as insertion-ordered
association lists `List (String × PaperInfo)`.  Python truthiness of an
optional string argument (`if author_search:`) is modelled by `pyBool`,
which is false for both `none` and the empty string.  The filesystem state
relevant to one registry file is modelled by `FileState`
(missing / corrupt / valid contents), and the provider call by an
`Except` value (`.error` = the network/transport exception the arxiv
client raises, `.ok` = the list of returned results).
-/

set_option autoImplicit false

namespace ArxivMCP

/-- Python `str.lower()` (character-wise; ASCII behaviour). -/
def pyLower (s : String) : String := ⟨s.data.map Char.toLower⟩

/-- Python `str.replace(c, d)` for single characters. -/
def replaceChar (c d : Char) (s : String) : String :=
  ⟨s.data.map (fun x => if x = c then d else x)⟩

/-- Python `s[:n]`. -/
def pyTake (n : Nat) (s : String) : String := ⟨s.data.take n⟩

/-- Python `str.replace("_", "")`. -/
def removeUnderscores (s : String) : String :=
  ⟨s.data.filter (fun c => c ≠ '_')⟩

/-- Python truthiness of an optional string: `None` and `""` are falsy. -/
def pyBool : Option String → Bool
  | none => false
  | some s => !s.data.isEmpty

/-- `str(x)` for an optional string: Python renders `None` as `"None"`. -/
def pyOptStr : Option String → String
  | none => "None"
  | some s => s

/-- The sort criteria of the external provider (`arxiv.SortCriterion`). -/
inductive SortCriterion where
  | Relevance
  | SubmittedDate
  | LastUpdatedDate
  deriving DecidableEq, Repr

/-- The sort orders of the external provider (`arxiv.SortOrder`). -/
inductive SortOrder where
  | Ascending
  | Descending
  deriving DecidableEq, Repr

/-- `sort_mapping` from `search_papers` (lines 63-70). -/
def sort_mapping : List (String × SortCriterion) :=
  [("relevance", .Relevance),
   ("submitted", .SubmittedDate),
   ("submitteddate", .SubmittedDate),
   ("updated", .LastUpdatedDate),
   ("lastupdated", .LastUpdatedDate),
   ("lastupdateddate", .LastUpdatedDate)]

/-- `sort_mapping.get(sort_by.lower().replace("_", ""), Relevance)` (line 71). -/
def sortCriterionOf (sort_by : String) : SortCriterion :=
  (sort_mapping.lookup (removeUnderscores (pyLower sort_by))).getD .Relevance

/-- `order_mapping` from `search_papers` (lines 74-79). -/
def order_mapping : List (String × SortOrder) :=
  [("desc", .Descending),
   ("descending", .Descending),
   ("asc", .Ascending),
   ("ascending", .Ascending)]

/-- `order_mapping.get(sort_order.lower(), Descending)` (line 80). -/
def sortOrderOf (sort_order : String) : SortOrder :=
  (order_mapping.lookup (pyLower sort_order)).getD .Descending

/-- `field_mapping` from `search_papers` (lines 86-94). -/
def field_mapping : List (String × String) :=
  [("title", "ti"),
   ("author", "au"),
   ("abstract", "abs"),
   ("category", "cat"),
   ("comment", "co"),
   ("journal", "jr"),
   ("all", "all")]

/-- `field_mapping.get(search_field.lower(), "all")` (line 95). -/
def fieldPrefixOf (search_field : String) : String :=
  (field_mapping.lookup (pyLower search_field)).getD "all"

/-- The first element of `search_query_parts` (lines 98-104): the field term,
carrying a `p:` marker exactly when the normalized field scope is not `all`. -/
def queryTermOf (query search_field : String) : String :=
  let fp := fieldPrefixOf search_field
  if fp ≠ "all" then fp ++ ":" ++ query else query

/-- The author clause of `search_query_parts` (lines 107-110): present only
when `author_search` is truthy; spaces become underscores, then lowercased. -/
def authorParts (author_search : Option String) : List String :=
  if pyBool author_search then
    ["au:" ++ pyLower (replaceChar ' ' '_' (author_search.getD ""))]
  else []

/-- The date clause of `search_query_parts` (lines 113-122). -/
def dateClauses (date_from date_to : Option String) : List String :=
  if pyBool date_from || pyBool date_to then
    if pyBool date_from && pyBool date_to then
      ["submittedDate:[" ++ date_from.getD "" ++ "0000 TO " ++ date_to.getD "" ++ "2359]"]
    else if pyBool date_from then
      ["submittedDate:[" ++ date_from.getD "" ++ "0000 TO *]"]
    else
      ["submittedDate:[* TO " ++ date_to.getD "" ++ "2359]"]
  else []

/-- `search_query_parts` after all appends (lines 83-122). -/
def searchQueryParts (query search_field : String)
    (author_search date_from date_to : Option String) : List String :=
  [queryTermOf query search_field] ++ authorParts author_search
    ++ dateClauses date_from date_to

/-- `final_query = " AND ".join(search_query_parts)` (line 125). -/
def finalQuery (query search_field : String)
    (author_search date_from date_to : Option String) : String :=
  String.intercalate " AND " (searchQueryParts query search_field author_search date_from date_to)

/-- Root storage path.  The source picks `/content/papers` when running in a
sandboxed Colab environment and `papers` otherwise (line 9); the choice is
environment sniffing outside the core, so the plain-filesystem default is
used here.  No claim depends on the concrete value. -/
def PAPER_DIR : String := "papers"

/-- `query_slug` derivation (lines 141-143): lowercase, spaces and `/` to
underscores, truncate to 50 characters, then append `_by_<author>` (spaces
to underscores, original case) when the author filter is truthy. -/
def querySlug (query : String) (author_search : Option String) : String :=
  let base := pyTake 50 (replaceChar '/' '_' (replaceChar ' ' '_' (pyLower query)))
  if pyBool author_search then
    base ++ "_by_" ++ replaceChar ' ' '_' (author_search.getD "")
  else base

/-- `file_path = os.path.join(PAPER_DIR, query_slug, "papers_info.json")`
(lines 145-148). -/
def storagePathOf (query : String) (author_search : Option String) : String :=
  PAPER_DIR ++ "/" ++ querySlug query author_search ++ "/papers_info.json"

/-- `topic_dir = topic.lower().replace(" ", "_")` from `get_topic_papers`
(line 344): the read-side topic-to-directory mapping. -/
def topicDirOf (topic : String) : String :=
  replaceChar ' ' '_' (pyLower topic)

/-- The `search_params` sub-dictionary stored with each record
(lines 177-183). -/
structure SearchParams where
  query : String
  sort_by : String
  search_field : String
  author_search : Option String
  date_range : Option String
  deriving DecidableEq, Repr

/-- One stored paper record, the value of `papers_info[paper_id]`
(lines 167-184). -/
structure PaperInfo where
  title : String
  authors : List String
  summary : String
  pdf_url : String
  published : String
  updated : String
  categories : List String
  primary_category : String
  entry_id : String
  search_params : SearchParams
  deriving DecidableEq, Repr

/-- One result returned by the external provider (an `arxiv.Result`):
exactly the attributes the source reads.  `updated` is optional because the
source guards it (`if paper.updated else ...`, line 173); `published` is
already the date string `str(paper.published.date())`. -/
structure Paper where
  short_id : String
  title : String
  authors : List String
  summary : String
  pdf_url : String
  published : String
  updated : Option String
  categories : List String
  primary_category : String
  entry_id : String
  deriving DecidableEq, Repr

/-- The arguments of one `search_papers` call (lines 35-43). -/
structure SearchArgs where
  query : String
  max_results : Nat
  sort_by : String
  sort_order : String
  search_field : String
  date_from : Option String
  date_to : Option String
  author_search : Option String
  deriving DecidableEq, Repr

/-- `date_range` field: `f"{date_from} to {date_to}" if date_from or date_to
else None` (line 182). -/
def dateRangeOf (date_from date_to : Option String) : Option String :=
  if pyBool date_from || pyBool date_to then
    some (pyOptStr date_from ++ " to " ++ pyOptStr date_to)
  else none

/-- The `paper_info` dictionary built for a newly seen paper
(lines 167-184). -/
def paperInfoOf (a : SearchArgs) (p : Paper) : PaperInfo :=
  { title := p.title
    authors := p.authors
    summary := p.summary
    pdf_url := p.pdf_url
    published := p.published
    updated := p.updated.getD p.published
    categories := p.categories
    primary_category := p.primary_category
    entry_id := p.entry_id
    search_params :=
      { query := a.query
        sort_by := a.sort_by
        search_field := a.search_field
        author_search := a.author_search
        date_range := dateRangeOf a.date_from a.date_to } }

/-- `papers_info[k]`: first binding of key `k` in the insertion-ordered
mapping (a Python dict never holds two bindings for one key). -/
def lookupVal : List (String × PaperInfo) → String → Option PaperInfo
  | [], _ => none
  | kv :: rest, k => if kv.1 = k then some kv.2 else lookupVal rest k

/-- `paper_id in papers_info` (line 165). -/
def containsKey (m : List (String × PaperInfo)) (k : String) : Bool :=
  (lookupVal m k).isSome

/-- The merge loop of `search_papers` (lines 158-185): walk the provider
results in order, appending every identifier to `paper_ids`, and inserting
a record (and bumping `new_papers_count`) only when its identifier is not
yet a key of the mapping. -/
def mergeLoop (a : SearchArgs) : List Paper → List String → Nat →
    List (String × PaperInfo) → List String × Nat × List (String × PaperInfo)
  | [], ids, n, m => (ids, n, m)
  | p :: rest, ids, n, m =>
    if containsKey m p.short_id then
      mergeLoop a rest (ids ++ [p.short_id]) n m
    else
      mergeLoop a rest (ids ++ [p.short_id]) (n + 1) (m ++ [(p.short_id, paperInfoOf a p)])

/-- `merge`: the whole per-call merge, starting from the loaded mapping with
empty accumulators.  Returns `(paper_ids, new_papers_count, papers_info)`. -/
def mergePapers (a : SearchArgs) (m : List (String × PaperInfo)) (ps : List Paper) :
    List String × Nat × List (String × PaperInfo) :=
  mergeLoop a ps [] 0 m

/-- State of one registry file: absent, present but not valid JSON, or a
valid JSON document holding a mapping (lines 151-155 load it; both
`FileNotFoundError` and `JSONDecodeError` fall back to `{}`). -/
inductive FileState where
  | missing
  | corrupt
  | valid (m : List (String × PaperInfo))
  deriving DecidableEq, Repr

/-- The mapping `search_papers` starts from (lines 150-155). -/
def loadedInfo : FileState → List (String × PaperInfo)
  | .missing => []
  | .corrupt => []
  | .valid m => m

/-- The dictionary `search_papers` returns (lines 192-209), without the
echoed `search_parameters` block, which is `a` itself. -/
structure SearchResult where
  paper_ids : List String
  total_found : Nat
  new_papers : Nat
  search_query : String
  search_parameters : SearchArgs
  storage_path : String
  message : String
  deriving DecidableEq, Repr

/-- The success path of `search_papers` (lines 140-209): load the registry
for the derived slug, merge the provider results, and return the summary
dictionary together with the mapping persisted back to the file. -/
def searchOk (st : FileState) (papers : List Paper) (a : SearchArgs) :
    SearchResult × List (String × PaperInfo) :=
  let fq := finalQuery a.query a.search_field a.author_search a.date_from a.date_to
  let file_path := storagePathOf a.query a.author_search
  let r := mergeLoop a papers [] 0 (loadedInfo st)
  ({ paper_ids := r.1
     total_found := r.1.length
     new_papers := r.2.1
     search_query := fq
     search_parameters := a
     storage_path := file_path
     message := "Found " ++ toString r.1.length ++ " papers (" ++
       toString r.2.1 ++ " new). Results saved to " ++ file_path },
   r.2.2)

/-- `search_papers` (lines 34-209).  The provider call is the `Except`
argument: `.error e` models the network/transport exception raised by the
arxiv client while the results are consumed — the source wraps that call in
no handler, so the exception propagates and the registry file is not
written (the write at line 188 is never reached).  On `.ok papers` the
success path `searchOk` runs to completion. -/
def search_papers (st : FileState) (provider : Except String (List Paper))
    (a : SearchArgs) : Except String (SearchResult × List (String × PaperInfo)) :=
  match provider with
  | .error e => .error e
  | .ok papers => .ok (searchOk st papers a)

/-! ## `extract_info`: cross-topic identifier lookup (lines 263-292) -/

/-- One sub-directory of the root storage path, as `extract_info` sees it:
its name and the state of its `papers_info.json`.  Non-directory entries of
the root listing are skipped by the source (`os.path.isdir`), as are
directories without the file or with a corrupt one, so they are all
equivalent to `FileState.missing`/`FileState.corrupt` here. -/
structure TopicDir where
  name : String
  content : FileState
  deriving DecidableEq, Repr

/-- JSON string escaping as `json.dumps(..., ensure_ascii=False)` performs
it on the characters that occur in practice (quote, backslash and the
common control characters). -/
def jsonEscapeChar (c : Char) : String :=
  if c = '"' then "\\\""
  else if c = '\\' then "\\\\"
  else if c = '\n' then "\\n"
  else if c = '\t' then "\\t"
  else if c = '\r' then "\\r"
  else String.singleton c

/-- A JSON string literal. -/
def jsonStr (s : String) : String :=
  "\"" ++ String.join (s.data.map jsonEscapeChar) ++ "\""

/-- A JSON string-or-null for an optional field. -/
def jsonOptStr : Option String → String
  | none => "null"
  | some s => jsonStr s

/-- A JSON list of strings under `indent=2`, rendered at nesting depth given
by `ind` (the indentation of the surrounding key). -/
def jsonStrList (ind : String) (l : List String) : String :=
  match l with
  | [] => "[]"
  | _ => "[\n" ++
      String.intercalate ",\n" (l.map (fun s => ind ++ "  " ++ jsonStr s)) ++
      "\n" ++ ind ++ "]"

/-- The `search_params` object under `indent=2` at depth `ind`. -/
def dumpSearchParams (ind : String) (sp : SearchParams) : String :=
  "\x7b\n" ++
  ind ++ "  \"query\": " ++ jsonStr sp.query ++ ",\n" ++
  ind ++ "  \"sort_by\": " ++ jsonStr sp.sort_by ++ ",\n" ++
  ind ++ "  \"search_field\": " ++ jsonStr sp.search_field ++ ",\n" ++
  ind ++ "  \"author_search\": " ++ jsonOptStr sp.author_search ++ ",\n" ++
  ind ++ "  \"date_range\": " ++ jsonOptStr sp.date_range ++ "\n" ++
  ind ++ "\x7d"

/-- `json.dumps(papers_info[paper_id], indent=2, ensure_ascii=False)`
(line 287), with the fields in the insertion order of lines 167-184. -/
def dumpPaperInfo (pi : PaperInfo) : String :=
  "\x7b\n" ++
  "  \"title\": " ++ jsonStr pi.title ++ ",\n" ++
  "  \"authors\": " ++ jsonStrList "  " pi.authors ++ ",\n" ++
  "  \"summary\": " ++ jsonStr pi.summary ++ ",\n" ++
  "  \"pdf_url\": " ++ jsonStr pi.pdf_url ++ ",\n" ++
  "  \"published\": " ++ jsonStr pi.published ++ ",\n" ++
  "  \"updated\": " ++ jsonStr pi.updated ++ ",\n" ++
  "  \"categories\": " ++ jsonStrList "  " pi.categories ++ ",\n" ++
  "  \"primary_category\": " ++ jsonStr pi.primary_category ++ ",\n" ++
  "  \"entry_id\": " ++ jsonStr pi.entry_id ++ ",\n" ++
  "  \"search_params\": " ++ dumpSearchParams "  " pi.search_params ++ "\n" ++
  "\x7d"

/-- The scan of `extract_info` (lines 278-290): walk the sub-directories in
listing order, skip those without a readable mapping, and return the first
stored record for the identifier. -/
def findPaper : List TopicDir → String → Option PaperInfo
  | [], _ => none
  | d :: rest, pid =>
    match d.content with
    | .valid m =>
      match lookupVal m pid with
      | some pi => some pi
      | none => findPaper rest pid
    | _ => findPaper rest pid

/-- `extract_info` (lines 263-292).  `root = none` models a missing root
storage directory (`os.path.exists(PAPER_DIR)` false); otherwise `root`
carries the listing of topic directories in `os.listdir` order. -/
def extract_info (root : Option (List TopicDir)) (paper_id : String) : String :=
  match root with
  | none => "Papers directory " ++ PAPER_DIR ++ " does not exist. No saved papers found."
  | some dirs =>
    match findPaper dirs paper_id with
    | some pi => dumpPaperInfo pi
    | none => "No saved information found for paper " ++ paper_id ++ "."

/-! ## `get_topic_papers`: the topic renderer (lines 335-397) -/

/-- Python `str.title()` (ASCII behaviour): a letter is uppercased when it
follows a non-letter, lowercased otherwise. -/
def pyTitleAux : List Char → Bool → List Char
  | [], _ => []
  | c :: rest, prevAlpha =>
    (if prevAlpha then c.toLower else c.toUpper) :: pyTitleAux rest c.isAlpha

/-- Python `str.title()`. -/
def pyTitle (s : String) : String := ⟨pyTitleAux s.data false⟩

/-- Append one `(paper_id, paper_info)` entry to its year group, preserving
first-occurrence order of years (lines 360-365). -/
def addYearEntry (y : String) (e : String × PaperInfo) :
    List (String × List (String × PaperInfo)) → List (String × List (String × PaperInfo))
  | [] => [(y, [e])]
  | (y', es) :: rest =>
    if y' = y then (y', es ++ [e]) :: rest else (y', es) :: addYearEntry y e rest

/-- `papers_by_year` (lines 360-365): group the mapping's entries by the
4-character year prefix of `published`. -/
def papersByYear (l : List (String × PaperInfo)) :
    List (String × List (String × PaperInfo)) :=
  l.foldl (fun acc e => addYearEntry (pyTake 4 e.2.published) e acc) []

/-- Insert into a list sorted in descending lexicographic order
(`sorted(..., reverse=True)`, line 368). -/
def insertDesc (x : String) : List String → List String
  | [] => [x]
  | y :: ys => if y < x then x :: y :: ys else y :: insertDesc x ys

/-- `sorted(keys, reverse=True)` (line 368). -/
def sortDesc (l : List String) : List String := l.foldr insertDesc []

/-- Year-group lookup (`papers_by_year[year]`). -/
def yearGroup (g : List (String × List (String × PaperInfo))) (y : String) :
    List (String × PaperInfo) :=
  match g with
  | [] => []
  | (y', es) :: rest => if y' = y then es else yearGroup rest y

/-- The per-paper markdown block (lines 371-391). -/
def renderPaper (e : String × PaperInfo) : String :=
  let pi := e.2
  "### " ++ pi.title ++ "\n" ++
  "- **Paper ID**: `" ++ e.1 ++ "`\n" ++
  "- **Authors**: " ++ String.intercalate ", " (pi.authors.take 3) ++
  (if pi.authors.length > 3 then
    " *et al.* (" ++ toString pi.authors.length ++ " total)" else "") ++
  "\n" ++
  "- **Published**: " ++ pi.published ++
  (if pi.updated ≠ pi.published then " (Updated: " ++ pi.updated ++ ")" else "") ++
  "\n" ++
  "- **Category**: " ++ pi.primary_category ++ "\n" ++
  "- **PDF**: [Download PDF](" ++ pi.pdf_url ++ ")\n" ++
  "- **arXiv**: [View on arXiv](" ++ pi.entry_id ++ ")\n\n" ++
  "**Abstract**: " ++
  (if pi.summary.data.length > 300 then pyTake 300 pi.summary ++ "..." else pi.summary) ++
  "\n\n" ++
  "---\n\n"

/-- One year section (lines 368-391). -/
def renderYear (g : List (String × List (String × PaperInfo))) (y : String) : String :=
  "## " ++ y ++ " (" ++ toString (yearGroup g y).length ++ " papers)\n\n" ++
  String.join ((yearGroup g y).map renderPaper)

/-- The body rendered from a successfully loaded mapping (lines 354-393). -/
def renderTopicContent (topic : String) (papers_data : List (String × PaperInfo)) : String :=
  let papers_file := PAPER_DIR ++ "/" ++ topicDirOf topic ++ "/papers_info.json"
  let g := papersByYear papers_data
  "# Papers on " ++ pyTitle (replaceChar '_' ' ' topic) ++ "\n\n" ++
  "**Total papers**: " ++ toString papers_data.length ++ "\n" ++
  "**Storage location**: `" ++ papers_file ++ "`\n\n" ++
  String.join ((sortDesc (g.map Prod.fst)).map (renderYear g))

/-- `get_topic_papers` (lines 335-397): dispatch on the state of the
topic's registry file.  A missing file returns the guidance message
(lines 347-348); a file that fails to parse returns the corruption message
(lines 394-395); otherwise the loaded mapping is rendered. -/
def get_topic_papers (fs : String → FileState) (topic : String) : String :=
  match fs (topicDirOf topic) with
  | .missing =>
    "# No papers found for topic: " ++ topic ++
    "\n\nTry searching for papers on this topic first using the `search_papers` tool."
  | .corrupt =>
    "# Error reading papers data for " ++ topic ++
    "\n\nThe papers data file is corrupted."
  | .valid papers_data => renderTopicContent topic papers_data

/-! ## Spec-side definition for the slug-refinement claim -/

/-- The topic slug as the specification words it: "the query text lowercased
with spaces and path separators replaced by underscores and truncated to 50
characters, followed, when an author filter is present, by `_by_` and the
author filter with spaces replaced by underscores". -/
def querySlugSpec (query : String) (author_search : Option String) : String :=
  let base : String :=
    ⟨((query.data.map Char.toLower).map
        (fun c => if c = ' ' ∨ c = '/' then '_' else c)).take 50⟩
  if pyBool author_search then
    base ++ "_by_" ++
      ⟨(author_search.getD "").data.map (fun c => if c = ' ' then '_' else c)⟩
  else base

/-! ## Helper lemmas -/

theorem pyBool_some {s : String} (h : s ≠ "") : pyBool (some s) = true := by
  obtain ⟨data⟩ := s
  cases data with
  | nil => exact absurd (by decide) h
  | cons c cs => rfl

theorem data_ne_nil {s : String} (h : s ≠ "") : s.data ≠ [] := by
  obtain ⟨data⟩ := s
  cases data with
  | nil => exact absurd (by decide) h
  | cons c cs => simp

theorem lookupVal_append_of_some {m : List (String × PaperInfo)} {k : String}
    {r : PaperInfo} (h : lookupVal m k = some r) (l : List (String × PaperInfo)) :
    lookupVal (m ++ l) k = some r := by
  induction m with
  | nil => simp [lookupVal] at h
  | cons kv rest ih =>
    rw [List.cons_append, lookupVal]
    rw [lookupVal] at h
    by_cases hk : kv.1 = k
    · rw [if_pos hk] at h ⊢; exact h
    · rw [if_neg hk] at h ⊢; exact ih h

theorem lookupVal_append_self (m : List (String × PaperInfo)) (k : String)
    (v : PaperInfo) : (lookupVal (m ++ [(k, v)]) k).isSome = true := by
  induction m with
  | nil => simp [lookupVal]
  | cons kv rest ih =>
    rw [List.cons_append, lookupVal]
    by_cases hk : kv.1 = k
    · rw [if_pos hk]; rfl
    · rw [if_neg hk]; exact ih

theorem not_mem_keys_of_not_containsKey {m : List (String × PaperInfo)} {k : String}
    (h : containsKey m k = false) : k ∉ m.map Prod.fst := by
  induction m with
  | nil => simp
  | cons kv rest ih =>
    unfold containsKey lookupVal at h
    by_cases hk : kv.1 = k
    · rw [if_pos hk] at h; simp at h
    · rw [if_neg hk] at h
      simp only [List.map_cons, List.mem_cons]
      rintro (he | hm)
      · exact hk he.symm
      · exact ih h hm

theorem mergeLoop_fst (a : SearchArgs) (ps : List Paper) :
    ∀ ids n m, (mergeLoop a ps ids n m).1 = ids ++ ps.map (fun p => p.short_id) := by
  induction ps with
  | nil => intro ids n m; simp [mergeLoop]
  | cons p rest ih =>
    intro ids n m
    rw [mergeLoop]
    by_cases hc : containsKey m p.short_id = true
    · rw [if_pos hc, ih]; simp
    · rw [if_neg hc, ih]; simp

theorem mergeLoop_preserves (a : SearchArgs) (ps : List Paper) :
    ∀ ids n m k r, lookupVal m k = some r →
      lookupVal (mergeLoop a ps ids n m).2.2 k = some r := by
  induction ps with
  | nil => intro ids n m k r h; exact h
  | cons p rest ih =>
    intro ids n m k r h
    rw [mergeLoop]
    by_cases hc : containsKey m p.short_id = true
    · rw [if_pos hc]; exact ih _ _ _ _ _ h
    · rw [if_neg hc]; exact ih _ _ _ _ _ (lookupVal_append_of_some h _)

theorem mergeLoop_mono (a : SearchArgs) (ps : List Paper) (ids : List String)
    (n : Nat) (m : List (String × PaperInfo)) (k : String)
    (h : containsKey m k = true) :
    containsKey (mergeLoop a ps ids n m).2.2 k = true := by
  unfold containsKey at h ⊢
  cases hl : lookupVal m k with
  | none => rw [hl] at h; simp at h
  | some r => rw [mergeLoop_preserves a ps ids n m k r hl]; rfl

theorem mergeLoop_contains_incoming (a : SearchArgs) (ps : List Paper) :
    ∀ ids n m p, p ∈ ps →
      containsKey (mergeLoop a ps ids n m).2.2 p.short_id = true := by
  induction ps with
  | nil => intro ids n m p hp; simp at hp
  | cons q rest ih =>
    intro ids n m p hp
    rw [mergeLoop]
    by_cases hc : containsKey m q.short_id = true
    · rw [if_pos hc]
      cases List.mem_cons.1 hp with
      | inl he => subst he; exact mergeLoop_mono a rest _ _ _ _ hc
      | inr hm => exact ih _ _ _ _ hm
    · rw [if_neg hc]
      cases List.mem_cons.1 hp with
      | inl he =>
        subst he
        exact mergeLoop_mono a rest _ _ _ _ (lookupVal_append_self m _ _)
      | inr hm => exact ih _ _ _ _ hm

theorem mergeLoop_noop (a : SearchArgs) (ps : List Paper) :
    ∀ ids n m, (∀ p ∈ ps, containsKey m p.short_id = true) →
      mergeLoop a ps ids n m = (ids ++ ps.map (fun p => p.short_id), n, m) := by
  induction ps with
  | nil => intro ids n m _; simp [mergeLoop]
  | cons p rest ih =>
    intro ids n m h
    rw [mergeLoop, if_pos (h p (List.mem_cons_self p rest))]
    rw [ih _ _ _ (fun q hq => h q (List.mem_cons_of_mem p hq))]
    simp

theorem mergeLoop_nodup (a : SearchArgs) (ps : List Paper) :
    ∀ ids n m, (m.map Prod.fst).Nodup →
      ((mergeLoop a ps ids n m).2.2.map Prod.fst).Nodup := by
  induction ps with
  | nil => intro ids n m h; exact h
  | cons p rest ih =>
    intro ids n m h
    rw [mergeLoop]
    by_cases hc : containsKey m p.short_id = true
    · rw [if_pos hc]; exact ih _ _ _ h
    · rw [if_neg hc]
      apply ih
      have hcf : containsKey m p.short_id = false := by
        revert hc; cases containsKey m p.short_id <;> simp
      rw [List.map_append]
      rw [List.nodup_append]
      refine ⟨h, List.nodup_singleton _, ?_⟩
      intro x hx hx'
      simp at hx'
      subst hx'
      exact not_mem_keys_of_not_containsKey hcf hx

theorem lookup_mem_values {α β : Type} [BEq α] (l : List (α × β)) (k : α) (v : β)
    (h : l.lookup k = some v) : v ∈ l.map Prod.snd := by
  induction l with
  | nil => simp [List.lookup] at h
  | cons kv rest ih =>
    obtain ⟨k', v'⟩ := kv
    rw [List.lookup] at h
    cases hk : k == k' with
    | true => rw [hk] at h; simp at h; simp [h]
    | false =>
      rw [hk] at h
      simp at h
      simp only [List.map_cons, List.mem_cons]
      exact Or.inr (ih h)

/-- C3: the provider query's field term carries no field marker exactly when
the normalized field scope is `all`; for every other normalized scope the
term is `p:query` where `p` is the prefix the field mapping assigns to the
(lowercased) scope, one of `ti/au/abs/cat/co/jr`.  Examples: scope `title`
with query `transformers` yields `ti:transformers`; scope `all` yields the
bare `transformers`. -/
theorem C3_field_scope (q sf : String) (a df dt : Option String) :
    searchQueryParts q sf a df dt
        = queryTermOf q sf :: (authorParts a ++ dateClauses df dt)
  ∧ (fieldPrefixOf sf = "all" → queryTermOf q sf = q)
  ∧ (fieldPrefixOf sf ≠ "all" →
      queryTermOf q sf = fieldPrefixOf sf ++ ":" ++ q
      ∧ field_mapping.lookup (pyLower sf) = some (fieldPrefixOf sf)
      ∧ fieldPrefixOf sf ∈ ["ti", "au", "abs", "cat", "co", "jr"])
  ∧ queryTermOf "transformers" "title" = "ti:transformers"
  ∧ queryTermOf "transformers" "all" = "transformers" := by
  refine ⟨rfl, ?_, ?_, by decide, by decide⟩
  · intro h; simp [queryTermOf, h]
  · intro h
    have hl : field_mapping.lookup (pyLower sf) = some (fieldPrefixOf sf) := by
      unfold fieldPrefixOf at h ⊢
      cases hl : field_mapping.lookup (pyLower sf) with
      | none => rw [hl] at h; simp at h
      | some v => rfl
    refine ⟨by simp [queryTermOf, h], hl, ?_⟩
    have hv := lookup_mem_values _ _ _ hl
    simp [field_mapping] at hv
    rcases hv with h1 | h1 | h1 | h1 | h1 | h1 | h1
    all_goals first
      | (exact absurd h1 h)
      | simp [h1]

/-- Witness for C3 at concrete scopes: `title` is recognized and prefixes,
`banana` normalizes to `all` and leaves the query bare. -/
theorem C3_field_scope_witness :
    queryTermOf "hello world" "title" = "ti:" ++ "hello world"
  ∧ queryTermOf "hello world" "banana" = "hello world" :=
  ⟨(((C3_field_scope "hello world" "title" none none none).2.2.1 (by decide)).1).trans
      (by decide),
   (C3_field_scope "hello world" "banana" none none none).2.1 (by decide)⟩

/-- C4: the date clause is `submittedDate:[<from>0000 TO <to>2359]` with `*`
substituted for a missing bound, appears as the last query part when a bound
is supplied, and is absent when neither bound is supplied. -/
theorem C4_date_clause (q sf : String) (a : Option String) (f t : String)
    (hf : f ≠ "") (ht : t ≠ "") :
    dateClauses (some f) (some t)
        = ["submittedDate:[" ++ f ++ "0000 TO " ++ t ++ "2359]"]
  ∧ dateClauses (some f) none = ["submittedDate:[" ++ f ++ "0000 TO *]"]
  ∧ dateClauses none (some t) = ["submittedDate:[* TO " ++ t ++ "2359]"]
  ∧ dateClauses none none = []
  ∧ searchQueryParts q sf a (some f) (some t)
      = [queryTermOf q sf] ++ authorParts a
        ++ ["submittedDate:[" ++ f ++ "0000 TO " ++ t ++ "2359]"]
  ∧ dateClauses (some "20240101") (some "20240601")
      = ["submittedDate:[202401010000 TO 202406012359]"]
  ∧ dateClauses (some "20240101") none = ["submittedDate:[202401010000 TO *]"] := by
  have hf' := data_ne_nil hf
  have ht' := data_ne_nil ht
  refine ⟨?_, ?_, ?_, rfl, ?_, by decide, by decide⟩
  · simp [dateClauses, pyBool, hf', ht']
  · simp [dateClauses, pyBool, hf']
  · simp [dateClauses, pyBool, ht']
  · simp [searchQueryParts, dateClauses, pyBool, hf', ht']

/-- Witness for C4 at the spec's example bounds. -/
theorem C4_date_clause_witness :
    dateClauses (some "20240101") (some "20240601")
        = ["submittedDate:[" ++ "20240101" ++ "0000 TO " ++ "20240601" ++ "2359]"]
  ∧ dateClauses (some "20240101") none
        = ["submittedDate:[" ++ "20240101" ++ "0000 TO *]"]
  ∧ dateClauses none none = [] :=
  let h := C4_date_clause "x" "all" none "20240101" "20240601" (by decide) (by decide)
  ⟨h.1, h.2.1, h.2.2.2.1⟩

/-- C5: normalization is total and lenient — an unrecognized sort key falls
back to `Relevance`, an unrecognized search field to `all`, an unrecognized
sort order to `Descending`; sort-key matching depends only on the lowercased,
underscore-stripped key.  Concretely `banana` ↦ `Relevance`, `up` ↦
`Descending`, `SUBMITTED_DATE` ↦ `SubmittedDate`. -/
theorem C5_lenient_normalization (s t : String) :
    (sort_mapping.lookup (removeUnderscores (pyLower s)) = none →
      sortCriterionOf s = SortCriterion.Relevance)
  ∧ (field_mapping.lookup (pyLower s) = none → fieldPrefixOf s = "all")
  ∧ (order_mapping.lookup (pyLower s) = none → sortOrderOf s = SortOrder.Descending)
  ∧ (removeUnderscores (pyLower s) = removeUnderscores (pyLower t) →
      sortCriterionOf s = sortCriterionOf t)
  ∧ sortCriterionOf "banana" = SortCriterion.Relevance
  ∧ sortOrderOf "up" = SortOrder.Descending
  ∧ sortCriterionOf "SUBMITTED_DATE" = SortCriterion.SubmittedDate := by
  refine ⟨?_, ?_, ?_, ?_, by decide, by decide, by decide⟩
  · intro h; simp [sortCriterionOf, h]
  · intro h; simp [fieldPrefixOf, h]
  · intro h; simp [sortOrderOf, h]
  · intro h; simp [sortCriterionOf, h]

/-- Witness for C5: the fallbacks fire on concrete malformed inputs, and
`BA_NANA` matches like `banana`. -/
theorem C5_lenient_normalization_witness :
    sortCriterionOf "banana" = SortCriterion.Relevance
  ∧ fieldPrefixOf "banana" = "all"
  ∧ sortOrderOf "up" = SortOrder.Descending
  ∧ sortCriterionOf "banana" = sortCriterionOf "BA_NANA" :=
  ⟨(C5_lenient_normalization "banana" "BA_NANA").1 (by decide),
   (C5_lenient_normalization "banana" "BA_NANA").2.1 (by decide),
   (C5_lenient_normalization "up" "up").2.2.1 (by decide),
   (C5_lenient_normalization "banana" "BA_NANA").2.2.2.1 (by decide)⟩

/-- C6: the topic slug computed by the code coincides, for every input, with
the specification's description (query lowercased, spaces and `/` to
underscores, truncated to 50 characters, plus `_by_<author with spaces
replaced>` when an author filter is present).  Both sides are pure
functions of `(query, author filter)`, so identical inputs always resolve
to the same registry. -/
theorem C6_slug_refinement (q : String) (a : Option String) :
    querySlug q a = querySlugSpec q a := by
  have hbase : pyTake 50 (replaceChar '/' '_' (replaceChar ' ' '_' (pyLower q)))
      = (⟨((q.data.map Char.toLower).map
            (fun c => if c = ' ' ∨ c = '/' then '_' else c)).take 50⟩ : String) := by
    simp only [pyTake, replaceChar, pyLower, List.map_map]
    congr 2
    congr 1
    funext c
    simp only [Function.comp]
    by_cases h1 : c.toLower = ' '
    · rw [h1]; decide
    · by_cases h2 : c.toLower = '/'
      · rw [h2]; decide
      · simp [h1, h2]
  simp only [querySlug, querySlugSpec]
  rw [hbase]
  rfl

/-- C10: the read-side topic-to-directory mapping (`get_topic_papers`,
lowercase and spaces only) disagrees with the write-side slug whenever the
query text contains a path separator or exceeds 50 characters, so the
renderer does not resolve to the registry that a search for that query text
(without author filter) created. -/
theorem C10_read_write_slug_mismatch (q : String)
    (h : '/' ∈ q.data ∨ 50 < q.data.length) :
    topicDirOf q ≠ querySlug q none := by
  intro heq
  have hd : (topicDirOf q).data = (querySlug q none).data := congrArg String.data heq
  cases h with
  | inl hmem =>
    have h1 : '/' ∈ (topicDirOf q).data := by
      simp only [topicDirOf, replaceChar, pyLower, List.map_map]
      exact List.mem_map.2 ⟨'/', hmem, by decide⟩
    rw [hd] at h1
    have h2 : ∀ c ∈ (querySlug q none).data, c ≠ '/' := by
      intro c hc
      simp only [querySlug, pyBool, pyTake, replaceChar, pyLower, Bool.false_eq_true,
        if_false] at hc
      have hc' := List.mem_of_mem_take hc
      obtain ⟨y, _, hy⟩ := List.mem_map.1 hc'
      intro hcc
      subst hcc
      by_cases hy' : y = '/'
      · rw [if_pos hy'] at hy; exact absurd hy (by decide)
      · rw [if_neg hy'] at hy; exact hy' hy
    exact h2 _ h1 rfl
  | inr hlen =>
    have h1 : (topicDirOf q).data.length = q.data.length := by
      simp [topicDirOf, replaceChar, pyLower]
    have h2 : (querySlug q none).data.length ≤ 50 := by
      simp only [querySlug, pyBool, pyTake, Bool.false_eq_true, if_false]
      rw [List.length_take]
      exact min_le_left _ _
    rw [hd] at h1
    omega

/-- Witness for C10: the query `a/b` contains a path separator, and indeed
the renderer's directory differs from the search's slug. -/
theorem C10_read_write_slug_mismatch_witness :
    ('/' ∈ "a/b".data ∨ 50 < "a/b".data.length)
  ∧ topicDirOf "a/b" ≠ querySlug "a/b" none :=
  ⟨Or.inl (by decide),
   C10_read_write_slug_mismatch "a/b" (Or.inl (by decide))⟩

/-! ## Registry lemmas for `extract_info` -/

theorem findPaper_mem {dirs : List TopicDir} {pid : String} {pi : PaperInfo}
    (h : findPaper dirs pid = some pi) :
    ∃ d ∈ dirs, ∃ m, d.content = FileState.valid m ∧ lookupVal m pid = some pi := by
  induction dirs with
  | nil => simp [findPaper] at h
  | cons d rest ih =>
    cases hc : d.content with
    | valid m =>
      cases hl : lookupVal m pid with
      | some pi' =>
        have h' : some pi' = some pi := by
          simp only [findPaper, hc, hl] at h
          exact h
        exact ⟨d, List.mem_cons_self d rest, m, hc, by rw [hl]; exact h'⟩
      | none =>
        have h' : findPaper rest pid = some pi := by
          simp only [findPaper, hc, hl] at h
          exact h
        obtain ⟨d', hd', rest'⟩ := ih h'
        exact ⟨d', List.mem_cons_of_mem _ hd', rest'⟩
    | missing =>
      have h' : findPaper rest pid = some pi := by
        simp only [findPaper, hc] at h
        exact h
      obtain ⟨d', hd', rest'⟩ := ih h'
      exact ⟨d', List.mem_cons_of_mem _ hd', rest'⟩
    | corrupt =>
      have h' : findPaper rest pid = some pi := by
        simp only [findPaper, hc] at h
        exact h
      obtain ⟨d', hd', rest'⟩ := ih h'
      exact ⟨d', List.mem_cons_of_mem _ hd', rest'⟩

theorem findPaper_isSome {dirs : List TopicDir} {pid : String}
    (h : ∃ d ∈ dirs, ∃ m, d.content = FileState.valid m ∧ (lookupVal m pid).isSome) :
    (findPaper dirs pid).isSome := by
  induction dirs with
  | nil => simp at h
  | cons d rest ih =>
    obtain ⟨d', hd', m, hc, hl⟩ := h
    cases List.mem_cons.1 hd' with
    | inl he =>
      subst he
      simp only [findPaper, hc]
      cases hlv : lookupVal m pid with
      | some pi => simp [hlv]
      | none => rw [hlv] at hl; simp at hl
    | inr hm =>
      cases hdc : d.content with
      | valid m' =>
        simp only [findPaper, hdc]
        cases hlv : lookupVal m' pid with
        | some pi => simp [hlv]
        | none => simp only [hlv]; exact ih ⟨d', hm, m, hc, hl⟩
      | missing => simp only [findPaper, hdc]; exact ih ⟨d', hm, m, hc, hl⟩
      | corrupt => simp only [findPaper, hdc]; exact ih ⟨d', hm, m, hc, hl⟩

/-! ## Concrete example values used by witnesses and counterexamples -/

def argsEx : SearchArgs :=
  { query := "quantum computing", max_results := 5, sort_by := "relevance",
    sort_order := "descending", search_field := "all", date_from := none,
    date_to := none, author_search := none }

def infoEx : PaperInfo :=
  { title := "Old Title", authors := ["Alice"], summary := "first summary",
    pdf_url := "http://pdf/1", published := "2024-01-01", updated := "2024-01-01",
    categories := ["cs.AI"], primary_category := "cs.AI",
    entry_id := "http://arxiv/1",
    search_params :=
      { query := "quantum computing", sort_by := "relevance",
        search_field := "all", author_search := none, date_range := none } }

def paperEx : Paper :=
  { short_id := "2401.0001", title := "New Title", authors := ["Bob"],
    summary := "second summary", pdf_url := "http://pdf/2",
    published := "2024-02-02", updated := none, categories := ["cs.LG"],
    primary_category := "cs.LG", entry_id := "http://arxiv/2" }

def fsAllMissing : String → FileState := fun _ => FileState.missing

def fsAllCorrupt : String → FileState := fun _ => FileState.corrupt

def dirsEx : List TopicDir :=
  [{ name := "other_topic", content := FileState.corrupt },
   { name := "quantum_computing", content := FileState.valid [("2401.0001", infoEx)] }]

/-- Whether a search call produced a summary rather than an exception. -/
def returnsResult (x : Except String (SearchResult × List (String × PaperInfo))) : Bool :=
  match x with
  | .ok _ => true
  | .error _ => false

/-! ## Claim theorems on the registry and orchestrator -/

/-- C1: first-write-wins per identifier — any record already bound in the
mapping keeps its binding through a merge of arbitrary incoming records,
and the merge preserves key uniqueness, so the mapping never holds more
than one record per identifier. -/
theorem C1_first_write_wins (a : SearchArgs) (m : List (String × PaperInfo))
    (ps : List Paper) (X : String) (r : PaperInfo)
    (hstored : lookupVal m X = some r) :
    lookupVal (mergePapers a m ps).2.2 X = some r
  ∧ ((m.map Prod.fst).Nodup → ((mergePapers a m ps).2.2.map Prod.fst).Nodup) :=
  ⟨mergeLoop_preserves a ps [] 0 m X r hstored,
   fun h => mergeLoop_nodup a ps [] 0 m h⟩

/-- Witness for C1: a stored record with identifier `2401.0001` survives a
merge of an incoming record with the same identifier but different fields. -/
theorem C1_first_write_wins_witness :
    lookupVal (mergePapers argsEx [("2401.0001", infoEx)] [paperEx]).2.2 "2401.0001"
        = some infoEx
  ∧ (((mergePapers argsEx [("2401.0001", infoEx)] [paperEx]).2.2.map Prod.fst).Nodup) :=
  have h := C1_first_write_wins argsEx [("2401.0001", infoEx)] [paperEx]
    "2401.0001" infoEx (by rfl)
  ⟨h.1, h.2 (by simp)⟩

/-- C2: merge is idempotent on identifiers — re-running the same search on
the state the first run persisted, with the same provider results, reports
zero new papers, returns the same identifier list, and leaves the persisted
mapping unchanged. -/
theorem C2_merge_idempotent (st : FileState) (ps : List Paper) (a : SearchArgs) :
    (searchOk (FileState.valid (searchOk st ps a).2) ps a).1.new_papers = 0
  ∧ (searchOk (FileState.valid (searchOk st ps a).2) ps a).2 = (searchOk st ps a).2
  ∧ (searchOk (FileState.valid (searchOk st ps a).2) ps a).1.paper_ids
      = (searchOk st ps a).1.paper_ids
  ∧ search_papers (FileState.valid (searchOk st ps a).2) (Except.ok ps) a
      = Except.ok (searchOk (FileState.valid (searchOk st ps a).2) ps a) := by
  have hall : ∀ p ∈ ps, containsKey (searchOk st ps a).2 p.short_id = true :=
    fun p hp => mergeLoop_contains_incoming a ps [] 0 (loadedInfo st) p hp
  have hno := mergeLoop_noop a ps [] 0 (searchOk st ps a).2 hall
  have h1 : (searchOk (FileState.valid (searchOk st ps a).2) ps a).1.new_papers
      = (mergeLoop a ps [] 0 (searchOk st ps a).2).2.1 := rfl
  have h2 : (searchOk (FileState.valid (searchOk st ps a).2) ps a).2
      = (mergeLoop a ps [] 0 (searchOk st ps a).2).2.2 := rfl
  have h3 : (searchOk (FileState.valid (searchOk st ps a).2) ps a).1.paper_ids
      = (mergeLoop a ps [] 0 (searchOk st ps a).2).1 := rfl
  refine ⟨?_, ?_, ?_, rfl⟩
  · rw [h1, hno]
  · rw [h2, hno]
  · rw [h3, hno]
    have h4 : (searchOk st ps a).1.paper_ids
        = (mergeLoop a ps [] 0 (loadedInfo st)).1 := rfl
    rw [h4, mergeLoop_fst]

/-- C8 as stated is false: a provider failure is not converted into a
descriptive failure result — at a concrete failing call `search_papers`
yields no result at all (the exception propagates). -/
theorem C8_counterexample :
    returnsResult
      (search_papers FileState.missing (Except.error "connection refused") argsEx)
      = false := rfl

/-- C8 amended: a provider network/transport failure is propagated to the
caller unchanged, as a raw fault; `search_papers` itself installs no
handler, so the registry is not touched on that path.  (The read-side
operations `extract_info` and `get_topic_papers` do return a message for
every modelled input.) -/
theorem C8_provider_fault_propagates (st : FileState) (e : String) (a : SearchArgs) :
    search_papers st (Except.error e) a = Except.error e := rfl

/-- C7 as stated is false: when the registry file exists but fails to load
as valid JSON, `get_topic_papers` returns the "data file is corrupted"
error text, not the "try searching first" guidance. -/
theorem C7_corrupt_counterexample :
    get_topic_papers fsAllCorrupt "quantum computing"
        = "# Error reading papers data for quantum computing\n\nThe papers data file is corrupted."
  ∧ get_topic_papers fsAllCorrupt "quantum computing"
      ≠ "# No papers found for topic: quantum computing\n\nTry searching for papers on this topic first using the `search_papers` tool." :=
  ⟨by decide, by decide⟩

/-- C7 amended: a missing registry file renders the "try searching first"
guidance message, and a corrupt one renders the "data file is corrupted"
error message — in both cases a deterministic message, never a stack trace
or an empty-table artifact. -/
theorem C7_missing_or_corrupt (fs : String → FileState) (topic : String) :
    (fs (topicDirOf topic) = FileState.missing →
      get_topic_papers fs topic
        = "# No papers found for topic: " ++ topic ++
          "\n\nTry searching for papers on this topic first using the `search_papers` tool.")
  ∧ (fs (topicDirOf topic) = FileState.corrupt →
      get_topic_papers fs topic
        = "# Error reading papers data for " ++ topic ++
          "\n\nThe papers data file is corrupted.") := by
  constructor <;> intro h <;> simp [get_topic_papers, h]

/-- Witness for the amended C7 at a concrete missing and corrupt registry. -/
theorem C7_missing_or_corrupt_witness :
    get_topic_papers fsAllMissing "agents"
        = "# No papers found for topic: " ++ "agents" ++
          "\n\nTry searching for papers on this topic first using the `search_papers` tool."
  ∧ get_topic_papers fsAllCorrupt "agents"
      = "# Error reading papers data for " ++ "agents" ++
        "\n\nThe papers data file is corrupted." :=
  ⟨(C7_missing_or_corrupt fsAllMissing "agents").1 rfl,
   (C7_missing_or_corrupt fsAllCorrupt "agents").2 rfl⟩

/-- C9: `extract_info` scans every topic registry — a missing root storage
directory yields the deterministic "no data" message; whenever any
registry in the listing holds the identifier the scan finds a record, the
record returned is one stored in some registry, and only an exhausted scan
yields the not-found message. -/
theorem C9_lookup_scans_all (dirs : List TopicDir) (pid : String) :
    extract_info none pid
        = "Papers directory " ++ PAPER_DIR ++ " does not exist. No saved papers found."
  ∧ (∀ pi, findPaper dirs pid = some pi →
      extract_info (some dirs) pid = dumpPaperInfo pi
      ∧ ∃ d ∈ dirs, ∃ m, d.content = FileState.valid m ∧ lookupVal m pid = some pi)
  ∧ ((∃ d ∈ dirs, ∃ m, d.content = FileState.valid m ∧ (lookupVal m pid).isSome)
      → (findPaper dirs pid).isSome)
  ∧ (findPaper dirs pid = none →
      extract_info (some dirs) pid
        = "No saved information found for paper " ++ pid ++ ".") := by
  refine ⟨rfl, ?_, fun h => findPaper_isSome h, ?_⟩
  · intro pi h
    exact ⟨by simp [extract_info, h], findPaper_mem h⟩
  · intro h
    simp [extract_info, h]

/-- Witness for C9: with a corrupt registry listed first and a valid one
second, the stored record is found; an unknown identifier and a missing
root yield the documented messages. -/
theorem C9_lookup_scans_all_witness :
    extract_info none "2401.0001"
        = "Papers directory " ++ PAPER_DIR ++ " does not exist. No saved papers found."
  ∧ extract_info (some dirsEx) "2401.0001" = dumpPaperInfo infoEx
  ∧ extract_info (some dirsEx) "9999.9999"
      = "No saved information found for paper " ++ "9999.9999" ++ "." :=
  ⟨(C9_lookup_scans_all dirsEx "2401.0001").1,
   ((C9_lookup_scans_all dirsEx "2401.0001").2.1 infoEx (by rfl)).1,
   (C9_lookup_scans_all dirsEx "9999.9999").2.2.2 (by rfl)⟩

end ArxivMCP
